import Mathlib

/-!
Verification development for the bidirectional QUIC benchmark harness
(src/main.rs).  The asynchronous I/O operations of the transport layer
(accepting unidirectional streams, reading chunks, sending datagrams,
connecting, opening streams, writing payloads) are modelled as explicit
outcome traces; the functions of the source are embedded as pure Lean
functions folding over those traces and threading the shared counters
(AtomicUsize is modelled as Nat) explicitly.  An Option result models a
computation that either returns (some) or never returns / panics (none),
as noted at each definition.
-/

namespace QuicBidirTest

/-! ### Server side: drive_stream (src/main.rs lines 181-245) -/

/-- Outcome of one call to stream.read_chunks on a 4-slot buffer
(src/main.rs line 194): Ok(Some n) delivers n chunks, Ok(None) signals
end-of-stream, Err is a read error. -/
inductive ReadChunksRes where
  | chunks (n : Nat)
  | finished
  | readErr
deriving DecidableEq, Repr

/-- Data of one accepted unidirectional stream, as the transport delivers
it to drive_stream: the sequence of read_chunks outcomes while draining,
and whether a send_datagram_wait on the connection would succeed at the
moment the acknowledgment for this stream is attempted
(src/main.rs line 221). -/
structure StreamData where
  reads : List ReadChunksRes
  ackSendOk : Bool
deriving DecidableEq, Repr

/-- Result of connection.accept_uni() (src/main.rs line 186): a stream, or
a connection-level error. -/
inductive AcceptRes where
  | ok (s : StreamData)
  | err
deriving DecidableEq, Repr

/-- Inner drain loop of drive_stream (src/main.rs lines 193-214): reads
chunks into the 4-element buffer until a break, returning the value of
has_failure at the break.  Ok(Some n) keeps min n 4 chunks (take over a
4-array) and breaks without failure when that count is 0; Ok(None) breaks
without failure; Err sets has_failure and breaks.  none models a trace
that ends before any break (the read would still be awaiting). -/
def drainStream : List ReadChunksRes → Option Bool
  | [] => none
  | ReadChunksRes.chunks n :: rest =>
      if Nat.min n 4 = 0 then some false else drainStream rest
  | ReadChunksRes.finished :: _ => some false
  | ReadChunksRes.readErr :: _ => some true

/-- Effect of handling one accepted stream in drive_stream: how much
total_received is incremented, how many acknowledgment datagram sends are
attempted, and which error logs are emitted. -/
structure StreamStep where
  receivedDelta : Nat
  ackAttempts : Nat
  readErrLogged : Bool
  sendErrLogged : Bool
deriving DecidableEq, Repr

/-- Body of the Ok(stream) arm of drive_stream (src/main.rs lines
189-233): drain the stream; if has_failure stayed false, increment
total_received by one and attempt exactly one acknowledgment datagram
send, logging a send error; if has_failure, log the read error and do
nothing else.  none models a stream whose drain never breaks. -/
def handleAccepted (s : StreamData) : Option StreamStep :=
  match drainStream s.reads with
  | none => none
  | some true => some ⟨0, 0, true, false⟩
  | some false => some ⟨1, 1, false, !s.ackSendOk⟩

/-- Outer loop of drive_stream (src/main.rs lines 185-243), threading the
total_received counter and the count of acknowledgment send attempts over
the sequence of accept_uni outcomes.  An accept error breaks the loop and
drive_stream returns Ok(()) with the totals reached; none models a loop
still awaiting (trace exhausted, or a stream whose drain never breaks). -/
def drive_stream : Nat → Nat → List AcceptRes → Option (Nat × Nat)
  | received, attempts, [] => none
  | received, attempts, AcceptRes.err :: _ => some (received, attempts)
  | received, attempts, AcceptRes.ok s :: rest =>
      match handleAccepted s with
      | none => none
      | some step =>
          drive_stream (received + step.receivedDelta)
            (attempts + step.ackAttempts) rest

/-! ### Server side: run_server / server_handle_connection
(src/main.rs lines 152-179) -/

/-- Outcome of awaiting one inbound handshake inside a spawned
per-connection task (src/main.rs line 175): an established connection
together with its subsequent accept_uni trace, or a handshake failure. -/
inductive HandshakeRes where
  | ok (streams : List AcceptRes)
  | err
deriving DecidableEq, Repr

/-- One spawned per-connection task of run_server (src/main.rs lines
161-165 and server_handle_connection, lines 171-179): a handshake error
is caught by the `if let Err` wrapper, logged as a lost connection, and
the task ends with no streams processed; a successful handshake runs
drive_stream.  Result: whether a lost connection was logged, and the
(received, ack-attempt) totals of drive_stream.  none models a task still
awaiting. -/
def server_connection_task : HandshakeRes → Option (Bool × Nat × Nat)
  | HandshakeRes.err => some (true, 0, 0)
  | HandshakeRes.ok streams =>
      (drive_stream 0 0 streams).map (fun p => (false, p.1, p.2))

/-- Accept loop of run_server (src/main.rs lines 155-166): every inbound
handshake, whatever its later outcome, gets its own spawned
server_connection_task; the loop itself never inspects a task's result. -/
def run_server (incoming : List HandshakeRes) : List (Option (Bool × Nat × Nat)) :=
  incoming.map server_connection_task

/-! ### Stats reporter: report_stats (src/main.rs lines 140-150) -/

/-- An event visible to the total_received counter: an increment by a
stream receive (fetch_add 1), or a 5-second tick of report_stats. -/
inductive StatEvent where
  | inc
  | tick
deriving DecidableEq, Repr

/-- Interleaved run of the counter and report_stats (src/main.rs lines
143-147): an increment adds one to the counter; a tick atomically swaps
the counter to zero and emits the drained value.  Returns the final
counter value and the list of emitted interval figures, in order. -/
def report_stats : Nat → List StatEvent → Nat × List Nat
  | c, [] => (c, [])
  | c, StatEvent.inc :: rest => report_stats (c + 1) rest
  | c, StatEvent.tick :: rest =>
      let out := report_stats 0 rest
      (out.1, c :: out.2)

/-! ### Client side: run_client sender tasks (src/main.rs lines 304-320) -/

/-- Outcome of one packet iteration of a sender task: open_uni failed
(the .unwrap() at src/main.rs line 306 panics), write_all failed, or the
full payload was written. -/
inductive PacketRes where
  | openFail
  | writeFail
  | sendOk
deriving DecidableEq, Repr

/-- One spawned sender task (src/main.rs lines 304-320): for num_packets
iterations, open a unidirectional stream and write the payload.  State is
(total_sent delta, number of logged send errors).  A successful write
increments sent; a write error is logged and the loop continues; an
open_uni error hits .unwrap() and the task panics (none).  none also
models a trace that ends before the loop does. -/
def sender_task : Nat → List PacketRes → Nat × Nat → Option (Nat × Nat)
  | 0, _, st => some st
  | _ + 1, [], _ => none
  | n + 1, PacketRes.openFail :: _, _ => none
  | n + 1, PacketRes.writeFail :: rest, st => sender_task n rest (st.1, st.2 + 1)
  | n + 1, PacketRes.sendOk :: rest, st => sender_task n rest (st.1 + 1, st.2)

/-- Final value of the shared total_sent counter after all t sender tasks
have ended, each given num_packets = p and its own outcome trace; none if
any task panicked or never ended. -/
def total_sent : Nat → Nat → (Nat → List PacketRes) → Option Nat
  | 0, _, _ => some 0
  | t + 1, p, outs =>
      match total_sent t p outs, sender_task p (outs t) (0, 0) with
      | some a, some st => some (a + st.1)
      | _, _ => none

/-! ### Client side: connection establishment (src/main.rs lines 290-296) -/

/-- Outcome of one endpoints[i].connect(..).await in run_client. -/
inductive ConnectRes where
  | ok
  | err
deriving DecidableEq, Repr

/-- Connection loop of run_client (src/main.rs lines 290-296): each
iteration connects with .expect(..) twice, so any failure panics the
whole client run (none); on all-success the number of established
connections is returned. -/
def client_connect_loop : List ConnectRes → Option Nat
  | [] => some 0
  | ConnectRes.ok :: rest => (client_connect_loop rest).map (· + 1)
  | ConnectRes.err :: _ => none

/-! ### Client side: server address resolution (src/main.rs lines 272-280) -/

/-- IP address, as std::net::IpAddr: a V4 address of four octets or a V6
address of eight 16-bit segments. -/
inductive IpAddr where
  | v4 (a b c d : Nat)
  | v6 (s1 s2 s3 s4 s5 s6 s7 s8 : Nat)
deriving DecidableEq, Repr

/-- std::net::IpAddr::is_unspecified: a V4 address is unspecified iff it
is 0.0.0.0, a V6 address iff it is ::. -/
def IpAddr.is_unspecified : IpAddr → Bool
  | IpAddr.v4 a b c d => a == 0 && b == 0 && c == 0 && d == 0
  | IpAddr.v6 s1 s2 s3 s4 s5 s6 s7 s8 =>
      s1 == 0 && s2 == 0 && s3 == 0 && s4 == 0 &&
      s5 == 0 && s6 == 0 && s7 == 0 && s8 == 0

/-- Socket address: IP plus port, as std::net::SocketAddr. -/
structure SocketAddr where
  ip : IpAddr
  port : Nat
deriving DecidableEq, Repr

/-- Rewrite of the parsed server address in run_client (src/main.rs lines
277-280): if the IP is unspecified, set it to 127.0.0.1 (set_ip leaves
the port untouched); otherwise leave the address as parsed. -/
def resolve_server_addr (addr : SocketAddr) : SocketAddr :=
  if addr.ip.is_unspecified then { addr with ip := IpAddr.v4 127 0 0 1 }
  else addr

/-! ### Server startup: setup_server / Server::create_server
(src/main.rs lines 78-100 and 347-419) -/

/-- Outcome of solana_net_utils::multi_bind_in_range (an external
collaborator, src/main.rs lines 401-406): a list of bound sockets
(modelled by their port numbers), or a bind error. -/
inductive BindOutcome where
  | ok (sockets : List Nat)
  | bindErr
deriving DecidableEq, Repr

/-- Ways server startup aborts the process: the .unwrap() on
multi_bind_in_range (src/main.rs line 406) panics on a bind error, and
endpoints[0] (src/main.rs line 89) panics on an empty endpoint list. -/
inductive StartupError where
  | bindPanic
  | noEndpointPanic
deriving DecidableEq, Repr

/-- Endpoint construction of setup_server (src/main.rs lines 399-418):
one Endpoint per socket produced by the bind; a bind error panics.  The
credential / crypto configuration path is an external collaborator and
does not affect the endpoint count. -/
def setup_server (bind : BindOutcome) : Except StartupError (List Nat) :=
  match bind with
  | BindOutcome.bindErr => Except.error StartupError.bindPanic
  | BindOutcome.ok sockets => Except.ok sockets

/-- Server::create_server (src/main.rs lines 78-100) given the bind
outcome for the requested endpoint count: setup_server's endpoints, then
local_address := endpoints[0] (panics if there are none), then one
run_server driver spawned per endpoint.  Returns (local_address, number
of spawned drivers); an error means the process aborted during server
setup, before any run_server driver was spawned. -/
def create_server (count : Nat) (bind : BindOutcome) :
    Except StartupError (Nat × Nat) :=
  match setup_server bind with
  | Except.error e => Except.error e
  | Except.ok endpoints =>
      match endpoints with
      | [] => Except.error StartupError.noEndpointPanic
      | e :: _ => Except.ok (e, endpoints.length)

/-! ### Client shutdown ordering: run_client (src/main.rs lines 271-337) -/

/-- Externally visible actions of run_client on its success path, in
program order. -/
inductive ClientAction where
  | connect (i : Nat)
  | spawnDatagramTask (i : Nat)
  | spawnSender (i : Nat)
  | logSent
  | waitIdle (i : Nat)
  | finish
deriving DecidableEq, Repr

/-- First for-loop of run_client (src/main.rs lines 290-321): for each
i < t, connect endpoint i, spawn its datagram-receive task, spawn its
sender task. -/
def connect_phase : Nat → List ClientAction
  | 0 => []
  | n + 1 =>
      connect_phase n ++
        [ClientAction.connect n, ClientAction.spawnDatagramTask n,
          ClientAction.spawnSender n]

/-- Second for-loop of run_client (src/main.rs lines 333-335): for each
i < t, await endpoints[i].wait_idle(). -/
def wait_idle_phase : Nat → List ClientAction
  | 0 => []
  | n + 1 => wait_idle_phase n ++ [ClientAction.waitIdle n]

/-- Action trace of run_client with t configured connections on the
success path (src/main.rs lines 271-337): the connect/spawn loop, the
throughput log line, the wait_idle loop, then the Ok(()) return. -/
def run_client_trace (t : Nat) : List ClientAction :=
  connect_phase t ++ [ClientAction.logSent] ++ wait_idle_phase t ++
    [ClientAction.finish]

/-! ### Claim theorems -/

/-- C1: for every stream accepted by drive_stream whose drain terminates,
total_received is incremented exactly once iff the stream was fully
drained to end-of-stream with no read error (drainStream = some false),
never when the drain hit a read error, and never more than once per
stream; the loop adds that per-stream delta exactly once before moving
on. -/
theorem c1_received_iff_clean_drain (s : StreamData) (step : StreamStep)
    (r a : Nat) (rest : List AcceptRes)
    (h : handleAccepted s = some step) :
    (step.receivedDelta = 1 ↔ drainStream s.reads = some false) ∧
    step.receivedDelta ≤ 1 ∧
    drive_stream r a (AcceptRes.ok s :: rest) =
      drive_stream (r + step.receivedDelta) (a + step.ackAttempts) rest := by
  have hh := h
  unfold handleAccepted at hh
  rcases hd : drainStream s.reads with _ | b <;> rw [hd] at hh
  · cases hh
  · cases b
    · cases hh
      exact ⟨by simp [hd], by simp, by simp [drive_stream, h]⟩
    · cases hh
      exact ⟨by simp [hd], by simp, by simp [drive_stream, h]⟩

/-- Witness for C1 at a stream that signals end-of-stream immediately. -/
theorem c1_witness :
    ((1 : Nat) = 1 ↔ drainStream [ReadChunksRes.finished] = some false) ∧
    (1 : Nat) ≤ 1 ∧
    drive_stream 0 0 [AcceptRes.ok ⟨[ReadChunksRes.finished], true⟩] =
      drive_stream 1 1 [] :=
  c1_received_iff_clean_drain ⟨[ReadChunksRes.finished], true⟩
    ⟨1, 1, false, false⟩ 0 0 [] rfl

/-- C3: per accepted stream whose drain terminates, the number of
acknowledgment datagram send attempts equals the received increment (one
attempt per increment, never a retry) and is at most one; when the drain
is clean but the datagram send fails, the increment still happened (delta
is 1), the failure is only logged, and the loop still proceeds to the
next accept exactly as on a successful send. -/
theorem c3_one_ack_attempt_per_increment (s : StreamData) (step : StreamStep)
    (r a : Nat) (rest : List AcceptRes)
    (h : handleAccepted s = some step) :
    step.ackAttempts = step.receivedDelta ∧
    step.ackAttempts ≤ 1 ∧
    (drainStream s.reads = some false → s.ackSendOk = false →
      step.receivedDelta = 1 ∧ step.sendErrLogged = true) ∧
    drive_stream r a (AcceptRes.ok s :: rest) =
      drive_stream (r + step.receivedDelta) (a + step.ackAttempts) rest := by
  have hh := h
  unfold handleAccepted at hh
  rcases hd : drainStream s.reads with _ | b <;> rw [hd] at hh
  · cases hh
  · cases b
    · cases hh
      refine ⟨rfl, by simp, fun _ hs => ⟨rfl, by simp [hs]⟩,
        by simp [drive_stream, h]⟩
    · cases hh
      refine ⟨rfl, by simp, fun hf _ => ?_, by simp [drive_stream, h]⟩
      simp at hf

/-- Witness for C3 at a cleanly drained stream whose acknowledgment
datagram send fails. -/
theorem c3_witness :
    (1 : Nat) = 1 ∧ (1 : Nat) ≤ 1 ∧
    (drainStream [ReadChunksRes.finished] = some false → false = false →
      (1 : Nat) = 1 ∧ true = true) ∧
    drive_stream 0 0 [AcceptRes.ok ⟨[ReadChunksRes.finished], false⟩] =
      drive_stream 1 1 [] :=
  c3_one_ack_attempt_per_increment ⟨[ReadChunksRes.finished], false⟩
    ⟨1, 1, false, true⟩ 0 0 [] rfl

/-- C6: a stream whose drain hits a read error is classified as a
failure: the error is logged, total_received is not incremented, no
acknowledgment datagram send is attempted, and the loop goes on to the
next accept with both totals unchanged; only a failure of accept_uni
itself ends the driver, returning the totals reached. -/
theorem c6_read_error_skips_stream :
    (∀ (s : StreamData) (r a : Nat) (rest : List AcceptRes),
      drainStream s.reads = some true →
      handleAccepted s = some ⟨0, 0, true, false⟩ ∧
      drive_stream r a (AcceptRes.ok s :: rest) = drive_stream r a rest) ∧
    (∀ (r a : Nat) (rest : List AcceptRes),
      drive_stream r a (AcceptRes.err :: rest) = some (r, a)) := by
  constructor
  · intro s r a rest hd
    have hh : handleAccepted s = some ⟨0, 0, true, false⟩ := by
      simp [handleAccepted, hd]
    exact ⟨hh, by simp [drive_stream, hh]⟩
  · intro r a rest
    rfl

/-- Witness for C6 at a stream whose first read errors, and at an accept
error. -/
theorem c6_witness :
    (handleAccepted ⟨[ReadChunksRes.readErr], true⟩ =
        some ⟨0, 0, true, false⟩ ∧
      drive_stream 0 0 [AcceptRes.ok ⟨[ReadChunksRes.readErr], true⟩] =
        drive_stream 0 0 []) ∧
    drive_stream 5 4 [AcceptRes.err] = some (5, 4) :=
  ⟨c6_read_error_skips_stream.1 ⟨[ReadChunksRes.readErr], true⟩ 0 0 [] rfl,
    c6_read_error_skips_stream.2 5 4 []⟩

/-- Helper: a sender task whose every iteration writes the full payload
successfully ends with sent increased by exactly its packet count and no
logged errors. -/
theorem sender_task_all_ok (p : Nat) :
    ∀ st : Nat × Nat,
      sender_task p (List.replicate p PacketRes.sendOk) st =
        some (st.1 + p, st.2) := by
  induction p with
  | zero => intro st; simp [sender_task]
  | succ n ih =>
      intro st
      rw [List.replicate_succ]
      have hstep :
          sender_task (n + 1)
              (PacketRes.sendOk :: List.replicate n PacketRes.sendOk) st =
            sender_task n (List.replicate n PacketRes.sendOk)
              (st.1 + 1, st.2) := rfl
      rw [hstep, ih (st.1 + 1, st.2)]
      have hadd : st.1 + 1 + n = st.1 + (n + 1) := by omega
      rw [hadd]

/-- C2: with t sender tasks of p packets each and no stream-open or write
failure anywhere, the final value of total_sent is exactly t * p. -/
theorem c2_sent_equals_t_times_p (t p : Nat) (outs : Nat → List PacketRes)
    (h : ∀ i, i < t → outs i = List.replicate p PacketRes.sendOk) :
    total_sent t p outs = some (t * p) := by
  induction t with
  | zero => simp [total_sent]
  | succ n ih =>
      have hn : total_sent n p outs = some (n * p) :=
        ih (fun i hi => h i (Nat.lt_succ_of_lt hi))
      have ho : outs n = List.replicate p PacketRes.sendOk :=
        h n (Nat.lt_succ_self n)
      have hs := sender_task_all_ok p ((0 : Nat), (0 : Nat))
      simp only [total_sent, hn, ho, hs]
      have : n * p + (0 + p) = (n + 1) * p := by
        rw [Nat.succ_mul]; omega
      rw [this]

/-- Witness for C2 with 2 connections of 3 packets each. -/
theorem c2_witness :
    total_sent 2 3 (fun _ => List.replicate 3 PacketRes.sendOk) = some 6 :=
  c2_sent_equals_t_times_p 2 3 (fun _ => List.replicate 3 PacketRes.sendOk)
    (fun _ _ => rfl)

/-- C4 counterexample: the claim says a failed outbound connect on the
client abandons only that connection attempt and leaves sibling connect
work unaffected; but in run_client a connect failure hits .expect and
panics the whole client run (none): with trace [err, ok] the sibling ok
connection is never established, whereas a lone ok trace establishes
one connection. -/
theorem c4_counterexample :
    client_connect_loop [ConnectRes.err, ConnectRes.ok] = none ∧
    client_connect_loop [ConnectRes.ok] = some 1 := ⟨rfl, rfl⟩

/-- C4 amended: a failed inbound handshake on the server is logged by its
own spawned task, only that connection is abandoned (zero received, zero
acks), and all remaining inbound connections are processed exactly as
before; a failed outbound connect on the client, by contrast, panics the
client run and abandons the remaining connection attempts as well. -/
theorem c4_server_handshake_isolated :
    (∀ rest : List HandshakeRes,
      run_server (HandshakeRes.err :: rest) =
        some (true, 0, 0) :: run_server rest) ∧
    (∀ rest : List ConnectRes,
      client_connect_loop (ConnectRes.err :: rest) = none) :=
  ⟨fun _ => rfl, fun _ => rfl⟩

/-- C5 counterexample: the claim says every per-packet failure, stream
open included, is logged and the loop continues to the next packet; but
open_uni failure hits .unwrap() and panics the sender task: with 2
packets and trace [openFail, sendOk] the task dies (none) instead of
continuing to the successful second packet, while a 1-packet task with
trace [sendOk] completes with sent = 1. -/
theorem c5_counterexample :
    sender_task 2 [PacketRes.openFail, PacketRes.sendOk] (0, 0) = none ∧
    sender_task 1 [PacketRes.sendOk] (0, 0) = some (1, 0) := ⟨rfl, rfl⟩

/-- C5 amended: a write failure is logged and not counted, and the loop
continues to the next packet with no retry and no termination of the
task; a successful write increments sent by one; but a stream-open
failure is unhandled (.unwrap) and panics the sending task without
incrementing sent. -/
theorem c5_write_failure_continues (n : Nat) (rest : List PacketRes)
    (st : Nat × Nat) :
    sender_task (n + 1) (PacketRes.writeFail :: rest) st =
      sender_task n rest (st.1, st.2 + 1) ∧
    sender_task (n + 1) (PacketRes.sendOk :: rest) st =
      sender_task n rest (st.1 + 1, st.2) ∧
    sender_task (n + 1) (PacketRes.openFail :: rest) st = none :=
  ⟨rfl, rfl, rfl⟩

/-- Helper: number of increment events in a counter event trace. -/
def countInc : List StatEvent → Nat
  | [] => 0
  | StatEvent.inc :: rest => countInc rest + 1
  | StatEvent.tick :: rest => countInc rest

/-- Helper: the emitted interval figures plus the residual counter always
account for the initial value plus every increment exactly once. -/
theorem report_stats_conservation (events : List StatEvent) :
    ∀ c : Nat,
      (report_stats c events).2.sum + (report_stats c events).1 =
        c + countInc events := by
  induction events with
  | nil => intro c; simp [report_stats, countInc]
  | cons e rest ih =>
      cases e with
      | inc =>
          intro c
          have h := ih (c + 1)
          simp only [report_stats, countInc]
          omega
      | tick =>
          intro c
          have h := ih 0
          simp only [report_stats, countInc, List.sum_cons]
          omega

/-- Helper: with a zeroed counter and no increment events, every emitted
interval figure is zero. -/
theorem report_stats_no_inc :
    ∀ events : List StatEvent, countInc events = 0 →
      ∀ r ∈ (report_stats 0 events).2, r = 0 := by
  intro events
  induction events with
  | nil => intro _ r hr; simp [report_stats] at hr
  | cons e rest ih =>
      cases e with
      | inc => intro h; simp [countInc] at h
      | tick =>
          intro h r hr
          simp only [report_stats, List.mem_cons] at hr
          rcases hr with h0 | hmem
          · exact h0
          · exact ih (by simpa [countInc] using h) r hmem

/-- C7: every increment of the received counter is reported in exactly
one interval (the emitted figures plus the residual counter conserve the
increment total, with no double count), every emitted figure is a Nat and
never negative, and with no increments every interval reports 0. -/
theorem c7_swap_reports_each_increment_once (c : Nat)
    (events : List StatEvent) :
    (report_stats c events).2.sum + (report_stats c events).1 =
      c + countInc events ∧
    (∀ r ∈ (report_stats c events).2, 0 ≤ r) ∧
    (countInc events = 0 → ∀ r ∈ (report_stats 0 events).2, r = 0) :=
  ⟨report_stats_conservation events c, fun r _ => Nat.zero_le r,
    fun h => report_stats_no_inc events h⟩

/-- Witness for C7 on two idle intervals. -/
theorem c7_witness :
    (report_stats 0 [StatEvent.tick, StatEvent.tick]).2.sum +
        (report_stats 0 [StatEvent.tick, StatEvent.tick]).1 =
      0 + countInc [StatEvent.tick, StatEvent.tick] ∧
    ∀ r ∈ (report_stats 0 [StatEvent.tick, StatEvent.tick]).2, r = 0 :=
  ⟨(c7_swap_reports_each_increment_once 0 [StatEvent.tick, StatEvent.tick]).1,
    (c7_swap_reports_each_increment_once 0
        [StatEvent.tick, StatEvent.tick]).2.2 rfl⟩

/-- C8: with a configured endpoint count of 0, whatever the bind
collaborator does that is consistent with that count (producing zero
sockets, or failing), Server::create_server aborts during server setup
with a startup error — the error return means no run_server driver was
ever spawned, so no traffic is driven — rather than proceeding with zero
endpoints. -/
theorem c8_zero_endpoints_aborts (bind : BindOutcome)
    (h : ∀ sockets, bind = BindOutcome.ok sockets → sockets.length = 0) :
    ∃ e, create_server 0 bind = Except.error e := by
  cases bind with
  | bindErr => exact ⟨StartupError.bindPanic, rfl⟩
  | ok sockets =>
      have h0 : sockets.length = 0 := h sockets rfl
      have hnil : sockets = [] := List.length_eq_zero.mp h0
      subst hnil
      exact ⟨StartupError.noEndpointPanic, rfl⟩

/-- Witness for C8 at a bind that returns zero sockets. -/
theorem c8_witness :
    ∃ e, create_server 0 (BindOutcome.ok []) = Except.error e :=
  c8_zero_endpoints_aborts (BindOutcome.ok [])
    (fun _ hs => by cases hs; rfl)

/-- Helper: every sender spawn action is in the connect phase. -/
theorem spawnSender_mem_connect_phase (t i : Nat) (h : i < t) :
    ClientAction.spawnSender i ∈ connect_phase t := by
  induction t with
  | zero => exact absurd h (Nat.not_lt_zero i)
  | succ n ih =>
      simp only [connect_phase, List.mem_append, List.mem_cons,
        List.mem_singleton]
      rcases Nat.lt_succ_iff_lt_or_eq.mp h with h' | h'
      · exact Or.inl (ih h')
      · subst h'
        exact Or.inr (Or.inr (Or.inr (Or.inl rfl)))

/-- Helper: every endpoint index is waited on in the wait-idle phase. -/
theorem waitIdle_mem_wait_idle_phase (t i : Nat) (h : i < t) :
    ClientAction.waitIdle i ∈ wait_idle_phase t := by
  induction t with
  | zero => exact absurd h (Nat.not_lt_zero i)
  | succ n ih =>
      simp only [wait_idle_phase, List.mem_append, List.mem_singleton]
      rcases Nat.lt_succ_iff_lt_or_eq.mp h with h' | h'
      · exact Or.inl (ih h')
      · subst h'
        exact Or.inr rfl

/-- Helper: no wait-idle action occurs during the connect phase. -/
theorem waitIdle_not_mem_connect_phase (t i : Nat) :
    ClientAction.waitIdle i ∉ connect_phase t := by
  induction t with
  | zero => simp [connect_phase]
  | succ n ih => simp [connect_phase, ih]

/-- Helper: the return action occurs in neither loop phase. -/
theorem finish_not_mem_phases (t : Nat) :
    ClientAction.finish ∉ connect_phase t ∧
    ClientAction.finish ∉ wait_idle_phase t := by
  induction t with
  | zero => simp [connect_phase, wait_idle_phase]
  | succ n ih => simp [connect_phase, wait_idle_phase, ih.1, ih.2]

/-- C9: the run_client action trace decomposes as the connect/spawn loop,
the log line, the whole wait-idle loop, then the single final return
action; every sender spawn lies in the connect phase, every endpoint
index is waited on in the wait-idle phase, no wait-idle action occurs
earlier than that phase, and the return action occurs nowhere before its
final position — so run_client waits for every endpoint to go idle after
issuing all its sends and before returning. -/
theorem c9_wait_idle_before_return (t i : Nat) (h : i < t) :
    run_client_trace t =
      connect_phase t ++ [ClientAction.logSent] ++ wait_idle_phase t ++
        [ClientAction.finish] ∧
    ClientAction.spawnSender i ∈ connect_phase t ∧
    ClientAction.waitIdle i ∈ wait_idle_phase t ∧
    ClientAction.waitIdle i ∉ connect_phase t ∧
    ClientAction.finish ∉ connect_phase t ∧
    ClientAction.finish ∉ wait_idle_phase t :=
  ⟨rfl, spawnSender_mem_connect_phase t i h,
    waitIdle_mem_wait_idle_phase t i h,
    waitIdle_not_mem_connect_phase t i,
    (finish_not_mem_phases t).1, (finish_not_mem_phases t).2⟩

/-- Witness for C9 with one configured connection. -/
theorem c9_witness :
    run_client_trace 1 =
      connect_phase 1 ++ [ClientAction.logSent] ++ wait_idle_phase 1 ++
        [ClientAction.finish] ∧
    ClientAction.waitIdle 0 ∈ wait_idle_phase 1 :=
  ⟨(c9_wait_idle_before_return 1 0 (by decide)).1,
    (c9_wait_idle_before_return 1 0 (by decide)).2.2.1⟩

/-- C10: an unspecified parsed server IP is rewritten to 127.0.0.1 with
the configured port kept unchanged, and a specified IP is used exactly as
given. -/
theorem c10_unspecified_ip_rewritten (addr : SocketAddr) :
    (addr.ip.is_unspecified = true →
      resolve_server_addr addr = ⟨IpAddr.v4 127 0 0 1, addr.port⟩) ∧
    (addr.ip.is_unspecified = false → resolve_server_addr addr = addr) := by
  constructor
  · intro h
    simp [resolve_server_addr, h]
  · intro h
    simp [resolve_server_addr, h]

/-- Witness for C10 at the default 0.0.0.0:11228 and at a specified
address. -/
theorem c10_witness :
    resolve_server_addr ⟨IpAddr.v4 0 0 0 0, 11228⟩ =
      ⟨IpAddr.v4 127 0 0 1, 11228⟩ ∧
    resolve_server_addr ⟨IpAddr.v4 145 40 90 189, 11228⟩ =
      ⟨IpAddr.v4 145 40 90 189, 11228⟩ :=
  ⟨(c10_unspecified_ip_rewritten ⟨IpAddr.v4 0 0 0 0, 11228⟩).1 rfl,
    (c10_unspecified_ip_rewritten ⟨IpAddr.v4 145 40 90 189, 11228⟩).2 rfl⟩

end QuicBidirTest
